import Mathlib

/-!
Verification of the icecaca addon core (`src/default.py`) against its
natural-language specification.

The Python source is shallowly embedded: every definition below is a direct
translation of a function (or of the relevant slice of a function) from
`src/default.py`.  UI side effects (progress dialogs, `print`, notifications)
carry no data flow and are either dropped or reflected as boolean fields of
the results; HTTP traffic and the filesystem are passed in as explicit
oracles so that the control flow of the source can be replayed on concrete
fixtures.
-/

/-! ## Python regex primitives

The resolvers extract values with `re.search` applied to patterns of the
shape `literal-prefix (.+?) literal-suffix` (optionally with a lazy `.+?`
skip between two literals, or with `(.*?)` allowing an empty group).  The
helpers below implement exactly that leftmost, lazy matching on character
lists: scan for the first occurrence of the prefix, take the shortest
group ending at the suffix (a group character may not be a newline unless
the pattern was compiled with DOTALL), and on failure resume scanning at
the next position, as the Python engine does.
-/

/-- One lazy group: shortest nonempty run of characters up to the first
occurrence of `suf`, refusing newlines unless `dotall`.  Returns the group
and the remainder after the suffix. -/
def lazyTo (suf : List Char) (dotall : Bool) : List Char → Option (List Char × List Char)
  | [] => none
  | c :: rest =>
    if dotall = false ∧ c = '\n' then none
    else if suf.isPrefixOf rest then some ([c], rest.drop suf.length)
    else
      match lazyTo suf dotall rest with
      | some (content, after) => some (c :: content, after)
      | none => none

/-- Lazy group that may be empty (Python `(.*?)`). -/
def lazyToStar (suf : List Char) (dotall : Bool) (l : List Char) :
    Option (List Char × List Char) :=
  if suf.isPrefixOf l then some ([], l.drop suf.length) else lazyTo suf dotall l

/-- `re.search(pre + group + suf, html)` for a literal `pre`/`suf` pair, where
`group` is `(.+?)` when `minOne` and `(.*?)` otherwise; yields the text the
group captured. -/
def reSearchAux (pre suf : List Char) (dotall minOne : Bool) : List Char → Option (List Char)
  | [] => none
  | l@(_ :: rest) =>
    if pre.isPrefixOf l then
      match (if minOne then lazyTo suf dotall (l.drop pre.length)
             else lazyToStar suf dotall (l.drop pre.length)) with
      | some (content, _) => some content
      | none => reSearchAux pre suf dotall minOne rest
    else reSearchAux pre suf dotall minOne rest

/-- String wrapper for `reSearchAux`. -/
def reSearch (html pre suf : String) (dotall minOne : Bool) : Option String :=
  (reSearchAux pre.data suf.data dotall minOne html.data).map String.mk

/-- `re.search(pre + ".+?" + mid + group + suf)`: a lazy uncaptured skip
between `pre` and `mid`, then a captured lazy group up to `suf`. -/
def reSearchSkipAux (pre mid suf : List Char) (dotall : Bool) : List Char → Option (List Char)
  | [] => none
  | l@(_ :: rest) =>
    if pre.isPrefixOf l then
      match lazyTo mid dotall (l.drop pre.length) with
      | some (_, afterMid) =>
        match lazyTo suf dotall afterMid with
        | some (content, _) => some content
        | none => reSearchSkipAux pre mid suf dotall rest
      | none => reSearchSkipAux pre mid suf dotall rest
    else reSearchSkipAux pre mid suf dotall rest

/-- String wrapper for `reSearchSkipAux`. -/
def reSearchSkip (html pre mid suf : String) (dotall : Bool) : Option String :=
  (reSearchSkipAux pre.data mid.data suf.data dotall html.data).map String.mk

/-- Plain substring test, as used for boolean `re.search(marker, html)` checks
on patterns that contain no metacharacters. -/
def containsSubAux (pat : List Char) : List Char → Bool
  | [] => pat.isPrefixOf []
  | l@(_ :: rest) => pat.isPrefixOf l || containsSubAux pat rest

/-- String wrapper for `containsSubAux`. -/
def containsSub (s pat : String) : Bool :=
  containsSubAux pat.data s.data

/-- Python truthiness of a string that may be `None`: `None` and the empty
string are falsy. -/
def optStrTruthy : Option String → Bool
  | none => false
  | some s => !(s = "")

/-- Python slice `name[8:9]`: at most one character starting at index 8. -/
def pySlice89 (s : String) : String :=
  String.mk ((s.data.drop 8).take 1)

/-! ## Wait Coordinator (`do_wait` / `handle_wait`, default.py:2743-2790)

`handle_wait(t, ...)` runs `secs` from 0, and while `secs < t` it ticks:
increments `secs`, updates the dialog, sleeps one second and polls the
dialog cancel flag, breaking as soon as it is set; it returns `True`
(Completed) unless cancelled.  The progress increment is computed as
`float(100) / time_to_wait`, which raises `ZeroDivisionError` when the
duration is exactly zero — modelled by the `none` result.  The cancel poll
is an oracle `cancel : Nat → Bool` giving `pDialog.iscanceled()` at tick
`k` (the value of `secs` in that iteration).  The result pairs the
Completed/Cancelled boolean with the number of ticks performed. -/

/-- The countdown loop body of `handle_wait`: `remaining` iterations left,
`secs` iterations already done; returns (cancelled, final secs). -/
def wait_countdown_loop (cancel : Nat → Bool) : Nat → Nat → Bool × Nat
  | 0, secs => (false, secs)
  | r + 1, secs =>
    let secs' := secs + 1
    if cancel secs' then (true, secs') else wait_countdown_loop cancel r secs'

/-- The whole countdown of `handle_wait` for a nonzero duration: the loop
runs `max 0 t` times (the `while secs < time_to_wait` guard on an `int`). -/
def wait_countdown (t : Int) (cancel : Nat → Bool) : Bool × Nat :=
  let (cancelled, ticks) := wait_countdown_loop cancel t.toNat 0
  (!cancelled, ticks)

/-- `handle_wait` (default.py:2762): `none` models the `ZeroDivisionError`
raised by the display-increment computation when the duration is zero;
otherwise Completed/Cancelled plus the tick count. -/
def handle_wait (t : Int) (cancel : Nat → Bool) : Option (Bool × Nat) :=
  if t = 0 then none else some (wait_countdown t cancel)

/-- `do_wait` (default.py:2743): normalizes an exactly-zero duration to one
second, then runs `handle_wait` (every account branch performs the same
call, differing only in the message displayed). -/
def do_wait (t : Int) (cancel : Nat → Bool) : Bool × Nat :=
  wait_countdown (if t = 0 then 1 else t) cancel

/-! ## Host resolvers (default.py:593-1069)

Each `resolve_<host>` function performs a GET, extracts hidden form fields
by pattern, and issues one or two POSTs.  The network is an oracle `Net`;
a resolver's result pairs the Python return/raise behaviour with the
number of POST requests it issued.  Raised exceptions are modelled by
`RErr`: `unavailable` is `Exception('File is currently unavailable on the
host')`, `parseFailure f` is the `AttributeError` from calling `.group(1)`
after `re.search` for field `f` returned `None`, `intFailure` is the
`ValueError` from `int()` on a malformed group, and `hostMessage` carries
error text scraped from the page (movreel's download-limit message).
A successful run returns `some link`; `none` is the soft `return None`
taken when a mandatory wait is cancelled. -/

structure Net where
  get : String → String
  post : String → List (String × String) → String

inductive RErr
  | unavailable
  | parseFailure (field : String)
  | intFailure (field : String)
  | hostMessage (msg : String)
deriving DecidableEq, Repr

/-- A resolver outcome: the returned/raised value and the POST count. -/
abbrev ResolveOut := Except RErr (Option String) × Nat

/-- The maintenance-mode marker checked by some resolvers. -/
def maintenanceMarker : String := "This server is in maintenance mode"

/-- `resolve_180upload` (default.py:593-634).  Note: this resolver performs
no maintenance-mode check. -/
def resolve_180upload (net : Net) (url : String) : ResolveOut :=
  let html := net.get url
  match reSearch html "<input type=\"hidden\" name=\"id\" value=\"" "\">" false true with
  | none => (.error (.parseFailure "id"), 0)
  | some id =>
    match reSearch html "<input type=\"hidden\" name=\"rand\" value=\"" "\">" false true with
    | none => (.error (.parseFailure "rand"), 0)
    | some rand =>
      let data1 := [("op", "download1"), ("id", id), ("rand", rand), ("method_free", "")]
      let html2 := net.post url data1
      match reSearch html2 "<input type=\"hidden\" name=\"id\" value=\"" "\">" false true with
      | none => (.error (.parseFailure "id"), 1)
      | some id2 =>
        match reSearch html2 "<input type=\"hidden\" name=\"rand\" value=\"" "\">" false true with
        | none => (.error (.parseFailure "rand"), 1)
        | some rand2 =>
          let data2 := [("op", "download2"), ("id", id2), ("rand", rand2),
                        ("method_free", ""), ("down_direct", "1")]
          let html3 := net.post url data2
          match reSearchSkip html3
              "<span style=\"background:#f9f9f9;border:1px dotted #bbb;padding:7px;\">"
              "<a href=\"" "\">" true with
          | none => (.error (.parseFailure "link"), 2)
          | some link => (.ok (some link), 2)

/-- The digit-group pattern of vidhog's countdown:
`pre` then a lazy skip to `mid` then a greedy `[0-9]*` group that must be
followed by `suf`. -/
def digitsThenAux (pre mid suf : List Char) : List Char → Option (List Char)
  | [] => none
  | l@(_ :: rest) =>
    if pre.isPrefixOf l then
      match lazyTo mid false (l.drop pre.length) with
      | some (_, afterMid) =>
        let ds := afterMid.takeWhile (fun c => c.isDigit)
        if suf.isPrefixOf (afterMid.drop ds.length) then some ds
        else digitsThenAux pre mid suf rest
      | none => digitsThenAux pre mid suf rest
    else digitsThenAux pre mid suf rest

/-- String wrapper for `digitsThenAux`. -/
def digitsThen (html pre mid suf : String) : Option String :=
  (digitsThenAux pre.data mid.data suf.data html.data).map String.mk

/-- `resolve_vidhog` (default.py:658-725): GET, maintenance check, first
POST, countdown wait read from the page, second POST after the wait.  The
integer fields in the second data dict are rendered with `toString` (the
Python dict holds them as ints; they are only ever serialized into the
POST body). -/
def resolve_vidhog (net : Net) (cancel : Nat → Bool) (url : String) : ResolveOut :=
  let html := net.get url
  if containsSub html maintenanceMarker then (.error .unavailable, 0)
  else
    match reSearch html "<input type=\"hidden\" name=\"op\" value=\"" "\">" false true with
    | none => (.error (.parseFailure "op"), 0)
    | some op =>
    match reSearch html "<input type=\"hidden\" name=\"usr_login\" value=\"" "\">" false false with
    | none => (.error (.parseFailure "usr_login"), 0)
    | some usr_login =>
    match reSearch html "<input type=\"hidden\" name=\"id\" value=\"" "\">" false true with
    | none => (.error (.parseFailure "id"), 0)
    | some postid =>
    match reSearch html "<input type=\"hidden\" name=\"fname\" value=\"" "\">" false true with
    | none => (.error (.parseFailure "fname"), 0)
    | some fname =>
    match reSearch html "<input type=\"submit\" name=\"method_free\" value=\""
        "\" class=\"freebtn right\">" false true with
    | none => (.error (.parseFailure "method_free"), 0)
    | some method_free =>
    let data1 := [("op", op), ("usr_login", usr_login), ("id", postid), ("fname", fname),
                  ("referer", url), ("method_free", method_free)]
    let html2 := net.post url data1
    match reSearch html2 "<input type=\"hidden\" name=\"op\" value=\"" "\">" false true with
    | none => (.error (.parseFailure "op"), 1)
    | some op2 =>
    match reSearch html2 "<input type=\"hidden\" name=\"id\" value=\"" "\">" false true with
    | none => (.error (.parseFailure "id"), 1)
    | some postid2 =>
    match reSearch html2 "<input type=\"hidden\" name=\"rand\" value=\"" "\">" false true with
    | none => (.error (.parseFailure "rand"), 1)
    | some rand =>
    match reSearch html2 "<input type=\"hidden\" name=\"method_free\" value=\"" "\">" false true with
    | none => (.error (.parseFailure "method_free"), 1)
    | some method_free2 =>
    match reSearch html2 "<input type=\"hidden\" name=\"down_direct\" value=\"" "\">" false true with
    | none => (.error (.parseFailure "down_direct"), 1)
    | some down_direct_s =>
    match down_direct_s.toInt? with
    | none => (.error (.intFailure "down_direct"), 1)
    | some down_direct =>
    match digitsThen html2 "<span id=\"countdown_str\">Wait <span id=\"" "\">" "</span>" with
    | none => (.error (.parseFailure "wait"), 1)
    | some wait_s =>
    match wait_s.toInt? with
    | none => (.error (.intFailure "wait"), 1)
    | some wait =>
    let data2 := [("op", op2), ("id", postid2), ("rand", rand), ("referer", url),
                  ("method_free", method_free2), ("down_direct", toString down_direct)]
    let finished := (do_wait wait cancel).1
    if finished then
      let html3 := net.post url data2
      match reSearch html3 "<strong><a href=\""
          "\">Click Here to download this file</a></strong>" false true with
      | none => (.error (.parseFailure "link"), 2)
      | some link => (.ok (some link), 2)
    else
      (.ok none, 1)

/-- `resolve_uploadorb` (default.py:728-782). -/
def resolve_uploadorb (net : Net) (url : String) : ResolveOut :=
  let html := net.get url
  if containsSub html maintenanceMarker then (.error .unavailable, 0)
  else
    match reSearch html "<input type=\"hidden\" name=\"op\" value=\"" "\">" false true with
    | none => (.error (.parseFailure "op"), 0)
    | some op =>
    match reSearch html "<input type=\"hidden\" name=\"usr_login\" value=\"" "\">" false false with
    | none => (.error (.parseFailure "usr_login"), 0)
    | some usr_login =>
    match reSearch html "<input type=\"hidden\" name=\"id\" value=\"" "\">" false true with
    | none => (.error (.parseFailure "id"), 0)
    | some postid =>
    match reSearch html "<input type=\"hidden\" name=\"fname\" value=\"" "\">" false true with
    | none => (.error (.parseFailure "fname"), 0)
    | some fname =>
    match reSearch html "<input type=\"submit\" name=\"method_free\" value=\""
        "\" class=\"btn2\">" false true with
    | none => (.error (.parseFailure "method_free"), 0)
    | some method_free =>
    let data1 := [("op", op), ("usr_login", usr_login), ("id", postid), ("fname", fname),
                  ("referer", url), ("method_free", method_free)]
    let html2 := net.post url data1
    match reSearch html2 "<input type=\"hidden\" name=\"op\" value=\"" "\">" false true with
    | none => (.error (.parseFailure "op"), 1)
    | some op2 =>
    match reSearch html2 "<input type=\"hidden\" name=\"id\" value=\"" "\">" false true with
    | none => (.error (.parseFailure "id"), 1)
    | some postid2 =>
    match reSearch html2 "<input type=\"hidden\" name=\"rand\" value=\"" "\">" false true with
    | none => (.error (.parseFailure "rand"), 1)
    | some rand =>
    match reSearch html2 "<input type=\"hidden\" name=\"method_free\" value=\"" "\">" false true with
    | none => (.error (.parseFailure "method_free"), 1)
    | some method_free2 =>
    match reSearch html2 "<input type=\"hidden\" name=\"down_direct\" value=\"" "\">" false true with
    | none => (.error (.parseFailure "down_direct"), 1)
    | some down_direct_s =>
    match down_direct_s.toInt? with
    | none => (.error (.intFailure "down_direct"), 1)
    | some down_direct =>
    let data2 := [("op", op2), ("id", postid2), ("rand", rand), ("referer", url),
                  ("method_free", method_free2), ("down_direct", toString down_direct)]
    let html3 := net.post url data2
    match reSearch html3 "ACTION=\"" "\">" false true with
    | none => (.error (.parseFailure "link"), 2)
    | some link => (.ok (some link), 2)

/-- `resolve_jumbofiles` (default.py:903-957).  `fname` is extracted but
not sent; both data dicts use hard-coded `op`/`method_free` values. -/
def resolve_jumbofiles (net : Net) (url : String) : ResolveOut :=
  let html := net.get url
  if containsSub html maintenanceMarker then (.error .unavailable, 0)
  else
    match reSearch html "<input type=\"hidden\" name=\"id\" value=\"" "\">" false true with
    | none => (.error (.parseFailure "id"), 0)
    | some postid =>
    match reSearch html "<input type=\"hidden\" name=\"fname\" value=\"" "\">" false true with
    | none => (.error (.parseFailure "fname"), 0)
    | some _fname =>
    let data1 := [("op", "download1"), ("id", postid), ("referer", url),
                  ("method_free", "method_free")]
    let html2 := net.post url data1
    match reSearch html2 "<input type=\"hidden\" name=\"id\" value=\"" "\">" false true with
    | none => (.error (.parseFailure "id"), 1)
    | some postid2 =>
    match reSearch html2 "<input type=\"hidden\" name=\"rand\" value=\"" "\">" false true with
    | none => (.error (.parseFailure "rand"), 1)
    | some rand =>
    let data2 := [("op", "download2"), ("id", postid2), ("rand", rand),
                  ("method_free", "method_free")]
    let html3 := net.post url data2
    match reSearch html3 "<FORM METHOD=\"LINK\" ACTION=\"" "\">" false true with
    | none => (.error (.parseFailure "link"), 2)
    | some link => (.ok (some link), 2)

/-- `resolve_movreel` (default.py:960-1023): after the first POST the page
is checked for a download-limit message, surfaced verbatim. -/
def resolve_movreel (net : Net) (url : String) : ResolveOut :=
  let html := net.get url
  if containsSub html maintenanceMarker then (.error .unavailable, 0)
  else
    match reSearch html "<input type=\"hidden\" name=\"op\" value=\"" "\">" false true with
    | none => (.error (.parseFailure "op"), 0)
    | some op =>
    match reSearch html "<input type=\"hidden\" name=\"usr_login\" value=\"" "\">" false false with
    | none => (.error (.parseFailure "usr_login"), 0)
    | some usr_login =>
    match reSearch html "<input type=\"hidden\" name=\"id\" value=\"" "\">" false true with
    | none => (.error (.parseFailure "id"), 0)
    | some postid =>
    match reSearch html "<input type=\"hidden\" name=\"fname\" value=\"" "\">" false true with
    | none => (.error (.parseFailure "fname"), 0)
    | some fname =>
    match reSearchSkip html "<input type=\"submit\" name=\"method_free\" style=\""
        "\" value=\"" "\">" false with
    | none => (.error (.parseFailure "method_free"), 0)
    | some method_free =>
    let data1 := [("op", op), ("usr_login", usr_login), ("id", postid), ("referer", url),
                  ("fname", fname), ("method_free", method_free)]
    let html2 := net.post url data1
    match reSearch html2 "<p class=\"err\">" "</p>" false true with
    | some errortxt => (.error (.hostMessage errortxt), 1)
    | none =>
    match reSearch html2 "<input type=\"hidden\" name=\"op\" value=\"" "\">" false true with
    | none => (.error (.parseFailure "op"), 1)
    | some op2 =>
    match reSearch html2 "<input type=\"hidden\" name=\"id\" value=\"" "\">" false true with
    | none => (.error (.parseFailure "id"), 1)
    | some postid2 =>
    match reSearch html2 "<input type=\"hidden\" name=\"rand\" value=\"" "\">" false true with
    | none => (.error (.parseFailure "rand"), 1)
    | some rand =>
    match reSearch html2 "<input type=\"hidden\" name=\"method_free\" value=\"" "\">" false true with
    | none => (.error (.parseFailure "method_free"), 1)
    | some method_free2 =>
    let data2 := [("op", op2), ("id", postid2), ("rand", rand), ("referer", url),
                  ("method_free", method_free2), ("down_direct", "1")]
    let html3 := net.post url data2
    match reSearch html3 "<a id=\"lnk_download\" href=\""
        "\">Download Original Video</a>" true true with
    | none => (.error (.parseFailure "link"), 2)
    | some link => (.ok (some link), 2)

/-- `resolve_billionuploads` (default.py:1026-1069): a fixed 3-second wait
(result ignored) before the maintenance check, one POST, and a
referer-tagged link. -/
def resolve_billionuploads (net : Net) (cancel : Nat → Bool) (url : String) : ResolveOut :=
  let html := net.get url
  let _ignored := do_wait 3 cancel
  if containsSub html maintenanceMarker then (.error .unavailable, 0)
  else
    match reSearch html "<input type=\"hidden\" name=\"rand\" value=\"" "\">" false true with
    | none => (.error (.parseFailure "rand"), 0)
    | some rand =>
    match reSearch html "<input type=\"hidden\" name=\"id\" value=\"" "\">" false true with
    | none => (.error (.parseFailure "id"), 0)
    | some postid =>
    match reSearch html "<input type=\"hidden\" name=\"method_free\" value=\"" "\">" false false with
    | none => (.error (.parseFailure "method_free"), 0)
    | some method_free =>
    match reSearch html "<input type=\"hidden\" name=\"down_direct\" value=\"" "\">" false true with
    | none => (.error (.parseFailure "down_direct"), 0)
    | some down_direct =>
    let data := [("op", "download2"), ("rand", rand), ("id", postid), ("referer", url),
                 ("method_free", method_free), ("down_direct", down_direct)]
    let html2 := net.post url data
    match reSearch html2 "&product_download_url=" "\"" false true with
    | none => (.error (.parseFailure "link"), 1)
    | some link => (.ok (some (link ++ "|referer=" ++ url)), 1)

/-! ## Resolver dispatch (`Handle_Vidlink`, default.py:2792-2895)

`Handle_Vidlink` computes twelve substring matches on the url, then
unconditionally extracts the hostname with
`re.search('//[w\.]*(.+?)/', url).group(1)` (default.py:2807) — which
raises `AttributeError` when the url has no `//host/` segment — then
optionally tries a Real-Debrid premium resolution (only when the setting
is on, the host is valid and login succeeds), then dispatches through an
`if/elif` chain in the source's order.  The chain has no `else`: a url
matching none of the table entries falls off the end of the function and
Python returns `None`.  The per-host resolution outcomes are abstracted
into an oracle `resolve : HostMatch → Option String` (each branch returns
its resolver's link, or `None` on soft failure/cancel). -/

inductive HostMatch
  | mega | shared2 | h180 | speedy | vidhog | uploadorb | sharebees
  | glumbo | jumbo | movreel | billion | rapid | nomatch
deriving DecidableEq, Repr

/-- The substring-match table of `Handle_Vidlink`, tested in the order of
its `if/elif` chain (the regexes are literal once the escaped dots are
read back). -/
def vidlinkDispatch (url : String) : HostMatch :=
  if containsSub url ".megaupload.com/" then .mega
  else if containsSub url ".2shared.com/" then .shared2
  else if containsSub url "180upload.com/" then .h180
  else if containsSub url "speedy.sh/" then .speedy
  else if containsSub url "vidhog.com/" then .vidhog
  else if containsSub url "uploadorb.com/" then .uploadorb
  else if containsSub url "sharebees.com/" then .sharebees
  else if containsSub url "glumbouploads.com/" then .glumbo
  else if containsSub url "jumbofiles.com/" then .jumbo
  else if containsSub url "movreel.com/" then .movreel
  else if containsSub url "billionuploads.com/" then .billion
  else if containsSub url "rapidshare.com/" then .rapid
  else .nomatch

/-- The backtracking over the greedy `[w\.]*` of the host pattern: with
the text starting right after a `//`, try consuming `k` characters with
the character class (longest first, as the greedy engine does) and
matching the lazy group `(.+?)` up to a literal `/` on the remainder. -/
def hostTryK (l : List Char) : Nat → Option (List Char)
  | 0 => (lazyTo ['/'] false l).map (fun p => p.1)
  | k + 1 =>
    match lazyTo ['/'] false (l.drop (k + 1)) with
    | some (g, _) => some g
    | none => hostTryK l k

/-- Leftmost match of `re.search('//[w\.]*(.+?)/', url)`: scan for `//`,
run the greedy class with backtracking, and on failure resume at the next
position. -/
def hostSearchAux : List Char → Option (List Char)
  | [] => none
  | l@(_ :: rest) =>
    if ['/', '/'].isPrefixOf l then
      match hostTryK (l.drop 2)
          (((l.drop 2).takeWhile (fun c => c = 'w' ∨ c = '.')).length) with
      | some g => some g
      | none => hostSearchAux rest
    else hostSearchAux rest

/-- String wrapper for `hostSearchAux`: the `host` value of
`Handle_Vidlink`, `none` when the pattern does not match (in which case
`.group(1)` raises `AttributeError`). -/
def hostSearch (url : String) : Option String :=
  (hostSearchAux url.data).map String.mk

/-- `Handle_Vidlink` (default.py:2792-2895).  The host extraction at
line 2807 runs unconditionally: when its pattern finds no `//host/`
segment, `.group(1)` raises `AttributeError`, modelled by `.error ()`.
`debrid = some r` models the Real-Debrid branch returning `r` (it returns
in every one of its own sub-branches once entered); `debrid = none`
models the setting being off, an invalid host, or a failed login, all of
which fall through to the dispatch chain.  A `nomatch` url reaches the
end of the function body: the Python function returns `None`. -/
def Handle_Vidlink (debrid : Option (Option String))
    (resolve : HostMatch → Option String) (url : String) :
    Except Unit (Option String) :=
  match hostSearch url with
  | none => .error ()
  | some _host =>
    match debrid with
    | some r => .ok r
    | none =>
      match vidlinkDispatch url with
      | .nomatch => .ok none
      | h => .ok (resolve h)

/-! ## HTTP Client (`GetURL`, default.py:2585-2629)

The whole transfer — `urlopen`, `read`, and the optional `Set-Cookie`
extraction — happens inside one `try`; any exception is caught, a
communication-failure notification is emitted, and the body is replaced by
the empty string.  The transport is abstracted as `HttpResp`. -/

inductive HttpResp
  | fails
  | ok (body : String) (setCookie : Option String)

/-- The cookie pattern `([^=]+=[^=;]+)` of `GetURL`: leftmost match of a
nonempty run of non-`=` characters, an `=`, and a nonempty run of
characters that are neither `=` nor `;`. -/
def cookiePairScan : List Char → Option (List Char)
  | [] => none
  | l@(c :: rest) =>
    if c = '=' then cookiePairScan rest
    else
      let run1 := l.takeWhile (fun x => x ≠ '=')
      match l.drop run1.length with
      | '=' :: r2 =>
        let run2 := r2.takeWhile (fun x => x ≠ '=' ∧ x ≠ ';')
        if run2.isEmpty then cookiePairScan rest
        else some (run1 ++ '=' :: run2)
      | _ => cookiePairScan rest

/-- String wrapper for `cookiePairScan`. -/
def extractCookiePair (s : String) : Option String :=
  (cookiePairScan s.data).map String.mk

/-- `GetURL` (default.py:2585-2629): returns the page body and whether the
communication-failure notification fired.  A transport failure — or a
failed `Set-Cookie` extraction, whose `AttributeError` is raised inside
the same `try` — is caught and yields the empty string. -/
def GetURL (resp : HttpResp) (save_cookie : Bool) : String × Bool :=
  match resp with
  | .fails => ("", true)
  | .ok body sc =>
    if save_cookie then
      match sc with
      | none => (body, false)
      | some hdr =>
        match extractCookiePair hdr with
        | some pair => (body ++ "<cookie>" ++ pair ++ "</cookie>", false)
        | none => ("", true)
    else (body, false)

/-! ## Session Store part tables (`PART`, `get_stacked_part`)

Part tables are Python dicts from part-number strings to urls, persisted
in the cache under the key `source<N>parts` as `repr(dict)` and read back
with `eval`.  The round trip is the identity on string dicts, so the store
is modelled directly as `String → Option PartTable`, where a `PartTable`
is an insertion-ordered association list with python-dict semantics. -/

abbrev PartTable := List (String × String)

/-- Python `d[k]` lookup (first — and only — binding of `k`). -/
def pyDictGet (t : PartTable) (k : String) : Option String :=
  match t with
  | [] => none
  | (k', v) :: rest => if k' = k then some v else pyDictGet rest k

/-- Python `d[k] = v`: replace in place when the key exists, else append. -/
def pyDictSet (t : PartTable) (k v : String) : PartTable :=
  match t with
  | [] => [(k, v)]
  | (k', v') :: rest => if k' = k then (k, v) :: rest else (k', v') :: pyDictSet rest k v

/-- The Session Store key of a source's part table. -/
def sourcePartsKey (sourcenumber : String) : String :=
  "source" ++ sourcenumber ++ "parts"

/-- The part-table slice of `PART` (default.py:2325-2333): load the current
table (defaulting to `{partnum: url}` when the cache entry is missing or
unreadable), set `sources[partnum] = url`, then delete and re-set the
cache entry. -/
def PART_record (cache : String → Option PartTable) (sourcenumber partnum url : String) :
    String → Option PartTable :=
  let key := sourcePartsKey sourcenumber
  let sources :=
    match cache key with
    | some t => t
    | none => [(partnum, url)]
  let sources' := pyDictSet sources partnum url
  fun k => if k = key then some sources' else cache k

/-- The source number `get_stacked_part` and `Stream_Source_with_parts`
derive from a display name: the single character `name[8:9]` (the one
right after the 8-character prefix `Source #`). -/
def stacked_source_key (name : String) : String :=
  sourcePartsKey (pySlice89 name)

/-- `get_stacked_part` (default.py:3041-3052).  Only the dict indexing sits
in a `try` (a missing part number returns `None`); a missing or
unreadable cache entry makes `eval(cache.get(...))` raise, which
propagates to the caller (`.error`). -/
def get_stacked_part (cache : String → Option PartTable) (name part : String) :
    Except Unit (Option String) :=
  match cache (stacked_source_key name) with
  | none => .error ()
  | some source => .ok (pyDictGet source part)

/-! ## `Stream_Source` (default.py:2911-2987)

The streaming loop.  For a stacked source it looks parts up one by one
from part 1; for each part found it immediately also looks up the next
part number to decide whether the current part is the final one.  The
body resolves the part url through `Handle_Vidlink` (its exceptions are
caught and break the loop; a `None` link breaks the loop) and hands the
link to the playback/downloading step, whose completion flag is an oracle
`play`.  The loop performs no Session Store writes; the store is threaded
through to the result to record exactly that. -/

structure StreamLog where
  requests : List Nat
  played : List String
  crashed : Bool
  fuelOut : Bool
deriving DecidableEq, Repr

/-- One `while last_part == False` execution of `Stream_Source`,
fuel-bounded.  `requests` lists the part numbers passed to
`get_stacked_part` in order; `played` the links handed to the
play/download step; `crashed` records an uncaught `get_stacked_part`
exception (missing part table). -/
def Stream_Source_loop (cache : String → Option PartTable) (name : String)
    (resolve : String → Except Unit (Option String)) (play : String → Bool)
    (stacked : Bool) (url : String) :
    Nat → Nat → List Nat → List String → StreamLog × (String → Option PartTable)
  | 0, _, acc, plays =>
    ({ requests := acc, played := plays, crashed := false, fuelOut := true }, cache)
  | fuel + 1, current_part, acc, plays =>
    if stacked then
      match get_stacked_part cache name (toString current_part) with
      | .error _ =>
        ({ requests := acc ++ [current_part], played := plays,
           crashed := true, fuelOut := false }, cache)
      | .ok url? =>
        let acc1 := acc ++ [current_part]
        if optStrTruthy url? then
          let url1 := url?.getD ""
          let cp := current_part + 1
          match get_stacked_part cache name (toString cp) with
          | .error _ =>
            ({ requests := acc1 ++ [cp], played := plays,
               crashed := true, fuelOut := false }, cache)
          | .ok next? =>
            let acc2 := acc1 ++ [cp]
            let lastPart := !(optStrTruthy next?)
            match resolve url1 with
            | .error _ =>
              ({ requests := acc2, played := plays, crashed := false, fuelOut := false }, cache)
            | .ok none =>
              ({ requests := acc2, played := plays, crashed := false, fuelOut := false }, cache)
            | .ok (some link) =>
              let plays1 := plays ++ [link]
              if play link then
                if lastPart then
                  ({ requests := acc2, played := plays1,
                     crashed := false, fuelOut := false }, cache)
                else
                  Stream_Source_loop cache name resolve play stacked url fuel cp acc2 plays1
              else
                ({ requests := acc2, played := plays1, crashed := false, fuelOut := false }, cache)
        else
          ({ requests := acc1, played := plays, crashed := false, fuelOut := false }, cache)
    else
      match resolve url with
      | .error _ => ({ requests := acc, played := plays, crashed := false, fuelOut := false }, cache)
      | .ok none => ({ requests := acc, played := plays, crashed := false, fuelOut := false }, cache)
      | .ok (some link) =>
        ({ requests := acc, played := plays ++ [link], crashed := false, fuelOut := false }, cache)

/-- `Stream_Source` entry: the loop starts with `last_part = False` and
`current_part = 1`. -/
def Stream_Source (cache : String → Option PartTable) (name : String)
    (resolve : String → Except Unit (Option String)) (play : String → Bool)
    (stacked : Bool) (url : String) (fuel : Nat) :
    StreamLog × (String → Option PartTable) :=
  Stream_Source_loop cache name resolve play stacked url fuel 1 [] []

/-! ## Watched-percentage rule (default.py:3036-3038, 3110-3152)

`get_watched_percent` indexes the fixed list `[.7, .8, .9]` with the
operator setting.  The player callbacks compute
`percentWatched = currentTime / totalTime` and mark the video watched on
the final part when the threshold is reached (`onPlayBackStopped`
additionally requires `totalTime > 1`).  XBMC reports times as floats;
they are modelled as rationals (all comparisons below are exact in both).
`none` models the `ZeroDivisionError` when `totalTime` is zero. -/

/-- `get_watched_percent` (default.py:3036-3038); `none` is the
`IndexError` on an out-of-range setting. -/
def get_watched_percent (setting : Nat) : Option ℚ :=
  [(7 : ℚ)/10, 8/10, 9/10].get? setting

/-- Whether `MyPlayer.onPlayBackEnded` (default.py:3126-3138) marks the
video watched. -/
def onPlayBackEnded_marks (finalPart : Bool) (currentTime totalTime watched_percent : ℚ) :
    Option Bool :=
  if finalPart then
    if totalTime = 0 then none
    else some (decide (currentTime / totalTime ≥ watched_percent))
  else some false

/-- Whether `MyPlayer.onPlayBackStopped` (default.py:3140-3152) marks the
video watched (same test plus `totalTime > 1`). -/
def onPlayBackStopped_marks (finalPart : Bool) (currentTime totalTime watched_percent : ℚ) :
    Option Bool :=
  if finalPart then
    if totalTime = 0 then none
    else some (decide (currentTime / totalTime ≥ watched_percent ∧ totalTime > 1))
  else some false

/-- The running-total accumulation of `play_with_watched`
(default.py:3013-3014): `totalTime` starts at 0 and adds each part's
duration. -/
def accumTotalTime (durations : List ℚ) : ℚ :=
  durations.foldl (· + ·) 0

/-! ## `DownloadThread.run` (default.py:3167-3223)

The transfer writes the `.dling` and `Downloading` sentinels, runs
`urlretrieve`, and raises `SmallFile` when the completed file is below
10000 bytes.  The `except` branch removes the sentinels, deletes the
partial file when the delete-incomplete setting is on, shows the
cancellation notice only for `StopDownloading` (and not in video-seek
mode), and re-raises everything else. -/

inductive RetrErr
  | stopDownloading
  | ioError
deriving DecidableEq, Repr

inductive DlResult
  | completed
  | smallFile
  | stopped
  | failed
deriving DecidableEq, Repr

structure RunEffect where
  result : DlResult
  partialDeleted : Bool
  sentinelRemoved : Bool
  cancelNotified : Bool
deriving DecidableEq, Repr

/-- `DownloadThread.run`: `retrieve = none` is a transfer that ran to
completion with `finalSize` bytes on disk; `some e` is an exception out of
`urlretrieve` (the cancel sentinel raises `StopDownloading`, anything else
is a generic I/O failure). -/
def DownloadThread_run (retrieve : Option RetrErr) (finalSize : Nat)
    (delete_incomplete video_seek : Bool) : RunEffect :=
  match retrieve with
  | none =>
    if finalSize < 10000 then
      { result := .smallFile, partialDeleted := delete_incomplete,
        sentinelRemoved := true, cancelNotified := false }
    else
      { result := .completed, partialDeleted := false,
        sentinelRemoved := true, cancelNotified := false }
  | some .stopDownloading =>
    { result := .stopped, partialDeleted := delete_incomplete,
      sentinelRemoved := true, cancelNotified := !video_seek }
  | some .ioError =>
    { result := .failed, partialDeleted := delete_incomplete,
      sentinelRemoved := true, cancelNotified := false }

/-! ## `Download_And_Play` start gate (default.py:3248-3324)

Before starting a `DownloadThread`, `Download_And_Play` checks the
download directory: if the `Downloading` sentinel is present it writes a
`Ping` sentinel and waits one second for the active downloader to answer
with an `Alive` file (the `_dlhook` progress callback answers pings).  An
answer makes it decline and show the running download's controls.  No
answer makes it treat the sentinel as stale: it removes the sentinel and
— when the delete-incomplete setting is on — deletes the destination file
recorded inside the sentinel, then proceeds to start a new download. -/

structure DapEnv where
  mypath : String
  downloading : Option (String × String)
  aliveReply : Option (String × String)
  delete_incomplete : Bool
  destIsFile : Bool
  dlingExists : Bool
  removeOk : Bool

inductive DapOutcome
  | noPathSet
  | declinedActive (path name : String)
  | removeFailed
  | started (staleSentinelCleared : Bool) (staleFileDeleted : Option String)
deriving DecidableEq, Repr

/-- The existing-destination checks of `Download_And_Play`
(default.py:3308-3318): an existing file paired with a `.dling` marker is
removed (declining on failure); an existing file without one only
produces a notification and the flow continues to the thread start. -/
def Download_And_Play_fileCheck (env : DapEnv) (cleared : Bool)
    (staleDeleted : Option String) : DapOutcome :=
  if env.destIsFile then
    if env.dlingExists then
      if env.removeOk then .started cleared staleDeleted else .removeFailed
    else .started cleared staleDeleted
  else .started cleared staleDeleted

/-- The start gate of `Download_And_Play` (default.py:3248-3324), up to
the `DownloadThread` start: `started` means a new download thread is
launched. -/
def Download_And_Play_gate (env : DapEnv) : DapOutcome :=
  if env.mypath = "path not set" then .noPathSet
  else
    match env.downloading with
    | some dl =>
      match env.aliveReply with
      | some pn => .declinedActive pn.1 pn.2
      | none =>
        Download_And_Play_fileCheck env true
          (if env.delete_incomplete then some dl.1 else none)
    | none => Download_And_Play_fileCheck env false none

/-! ## Concrete fixtures used by the claim theorems -/

/-- A Session Store holding the two-part table of source 1. -/
def partsCacheAB : String → Option PartTable := fun k =>
  if k = "source1parts" then some [("1", "urlA"), ("2", "urlB")] else none

/-- A Session Store holding distinct one-part tables for source 1 and
source 12. -/
def twoTableCache : String → Option PartTable := fun k =>
  if k = "source1parts" then some [("1", "url-of-source-1")]
  else if k = "source12parts" then some [("1", "url-of-source-12")]
  else none

/-- A 180upload landing page that carries the maintenance-mode marker and
nevertheless presents the hidden form fields. -/
def pageMaint180 : String :=
  "This server is in maintenance mode<input type=\"hidden\" name=\"id\" value=\"a\"><input type=\"hidden\" name=\"rand\" value=\"b\">"

/-- The 180upload follow-up page: hidden fields plus the final link span. -/
def page180Form : String :=
  "<input type=\"hidden\" name=\"id\" value=\"c\"><input type=\"hidden\" name=\"rand\" value=\"d\"><span style=\"background:#f9f9f9;border:1px dotted #bbb;padding:7px;\">x<a href=\"http://fin/f.avi\">"

/-- A network whose GET serves `pageMaint180` and whose POSTs serve
`page180Form`. -/
def net180 : Net :=
  { get := fun _ => pageMaint180, post := fun _ _ => page180Form }

/-- A network whose every GET serves a page that is just the
maintenance-mode marker. -/
def netMaint : Net :=
  { get := fun _ => maintenanceMarker, post := fun _ _ => "" }

/-- A download directory with a present `Downloading` sentinel whose writer
does not answer the liveness ping (a stale sentinel). -/
def dapStale : DapEnv :=
  { mypath := "/dl/new.avi", downloading := some ("/dl/old.avi", "Old Video"),
    aliveReply := none, delete_incomplete := true,
    destIsFile := false, dlingExists := false, removeOk := true }

/-- A download directory with a present `Downloading` sentinel whose writer
answers the liveness ping. -/
def dapAlive : DapEnv :=
  { mypath := "/dl/new.avi", downloading := some ("/dl/old.avi", "Old Video"),
    aliveReply := some ("/dl/old.avi", "Old Video"), delete_incomplete := true,
    destIsFile := false, dlingExists := false, removeOk := true }

/-! ## Helper lemmas -/

/-- The duration `do_wait` hands to `handle_wait` is never zero, so the
`ZeroDivisionError` case of `handle_wait` is unreachable from `do_wait`. -/
theorem handle_wait_of_do_wait (t : Int) (cancel : Nat → Bool) :
    handle_wait (if t = 0 then 1 else t) cancel = some (do_wait t cancel) := by
  unfold handle_wait do_wait
  split
  · simp
  · next h => simp [if_neg h]

/-- Setting one key of a python dict leaves the binding of every other key
unchanged. -/
theorem pyDictGet_pyDictSet_ne (t : PartTable) (k v p : String) (h : p ≠ k) :
    pyDictGet (pyDictSet t k v) p = pyDictGet t p := by
  induction t with
  | nil => simp [pyDictSet, pyDictGet, Ne.symm h]
  | cons hd tl ih =>
    obtain ⟨k', v'⟩ := hd
    by_cases hk : k' = k
    · subst hk
      simp [pyDictSet, pyDictGet, Ne.symm h]
    · simp [pyDictSet, pyDictGet, hk, ih]

/-- The `Stream_Source` loop body contains no Session Store writes: the
store it returns is the store it was given, on every path. -/
theorem Stream_Source_loop_store_frame (cache : String → Option PartTable) (name : String)
    (resolve : String → Except Unit (Option String)) (play : String → Bool)
    (stacked : Bool) (url : String) (fuel : Nat) :
    ∀ (cp : Nat) (acc : List Nat) (plays : List String),
      (Stream_Source_loop cache name resolve play stacked url fuel cp acc plays).2 = cache := by
  induction fuel with
  | zero => intro cp acc plays; rfl
  | succ n ih =>
    intro cp acc plays
    unfold Stream_Source_loop
    repeat' first
      | apply ih
      | rfl
      | split
      | dsimp only

/-- Slicing `name[8:9]` out of a display name `Source #<digits><rest>`
yields exactly the first character of the source number. -/
theorem pySlice89_sourceName (c : Char) (cs : List Char) (rest : String) :
    pySlice89 ("Source #" ++ String.mk (c :: cs) ++ rest) = String.mk [c] := by
  have hd : ("Source #" ++ String.mk (c :: cs) ++ rest).data =
      'S' :: 'o' :: 'u' :: 'r' :: 'c' :: 'e' :: ' ' :: '#' :: (c :: (cs ++ rest.data)) := by
    simp [String.data_append]
  simp [pySlice89, hd]

/-! ## Claim theorems -/

/-- C1 counterexample: the url `http://www.example.com/video.avi` matches
no entry of the host table, its host extraction succeeds, and
`Handle_Vidlink` (Real-Debrid off) returns `None` for it — not the url
itself as a playable result. -/
theorem icecaca_C1_counterexample :
    vidlinkDispatch "http://www.example.com/video.avi" = HostMatch.nomatch ∧
    hostSearch "http://www.example.com/video.avi" = some "example.com" ∧
    Handle_Vidlink none (fun _ => some "resolved") "http://www.example.com/video.avi" =
      Except.ok none ∧
    (Except.ok none : Except Unit (Option String)) ≠
      Except.ok (some "http://www.example.com/video.avi") := by
  refine ⟨rfl, rfl, rfl, by simp⟩

/-- C1 (amended): for a source url whose hostname matches none of the
entries of the fixed host table, `Handle_Vidlink` never yields the url as
a playable result: when the unconditional host extraction of line 2807
succeeds (the url has a `//host/` segment) the function falls off the end
of its `if/elif` chain and returns `None`, and when it fails the
`.group(1)` call raises `AttributeError`. -/
theorem icecaca_C1_unmatched_yields_none (resolve : HostMatch → Option String) (url : String)
    (h : vidlinkDispatch url = HostMatch.nomatch) :
    Handle_Vidlink none resolve url =
      (match hostSearch url with
       | some _ => Except.ok none
       | none => Except.error ()) ∧
    Handle_Vidlink none resolve url ≠ Except.ok (some url) := by
  unfold Handle_Vidlink
  cases hh : hostSearch url with
  | none => simp
  | some host => simp [h]

/-- C1 witness: the amended dispatch-default theorem applied to a
concrete unmatched url with a `//host/` segment (returns `None`) and to
one without (raises). -/
theorem icecaca_C1_unmatched_yields_none_witness :
    Handle_Vidlink none (fun _ => none) "http://example.org/direct/file.avi" =
      Except.ok none ∧
    Handle_Vidlink none (fun _ => none) "http://example.com" = Except.error () := by
  refine ⟨?_, ?_⟩
  · exact (icecaca_C1_unmatched_yields_none (fun _ => none)
      "http://example.org/direct/file.avi" rfl).1.trans rfl
  · exact (icecaca_C1_unmatched_yields_none (fun _ => none)
      "http://example.com" rfl).1.trans rfl

/-- C2: with the persisted part table `{1: urlA, 2: urlB}` for source 1,
`get_stacked_part` returns `urlA` for part 1, `urlB` for part 2 and `None`
for part 3; the `Stream_Source` loop starting at part 1 requests exactly
parts 1, 2, 2, 3 (for each found part immediately also fetching the next
part number to decide finality), plays both parts, terminates at the
first missing part, and never requests part 4. -/
theorem icecaca_C2_stacked_part_lookup :
    get_stacked_part partsCacheAB "Source #1 | MU | Part 1" "1" = .ok (some "urlA") ∧
    get_stacked_part partsCacheAB "Source #1 | MU | Part 1" "2" = .ok (some "urlB") ∧
    get_stacked_part partsCacheAB "Source #1 | MU | Part 1" "3" = .ok none ∧
    (Stream_Source partsCacheAB "Source #1 | MU | Part 1"
        (fun u => .ok (some u)) (fun _ => true) true "u0" 10).1 =
      { requests := [1, 2, 2, 3], played := ["urlA", "urlB"],
        crashed := false, fuelOut := false } ∧
    4 ∉ (Stream_Source partsCacheAB "Source #1 | MU | Part 1"
        (fun u => .ok (some u)) (fun _ => true) true "u0" 10).1.requests := by
  refine ⟨rfl, rfl, rfl, rfl, by decide⟩

/-- C3 counterexample: `resolve_180upload` is a supported host resolver,
yet on a fetched page that contains the maintenance-mode marker it does
not fail with the unavailable message and zero POSTs — it proceeds and
issues two POST requests. -/
theorem icecaca_C3_counterexample :
    containsSub (net180.get "http://180upload.com/f") maintenanceMarker = true ∧
    resolve_180upload net180 "http://180upload.com/f" = (.ok (some "http://fin/f.avi"), 2) := by
  refine ⟨rfl, rfl⟩

/-- C3 (amended): the five resolvers that perform the maintenance-mode
check — vidhog, uploadorb, jumbofiles, movreel and billionuploads —
return the hard failure `File is currently unavailable on the host` and
issue zero POST requests whenever the page fetched by the initial GET
contains the marker; the remaining resolvers (180upload, speedyshare,
sharebees, glumbouploads) perform no such check. -/
theorem icecaca_C3_maintenance_mode (net : Net) (cancel : Nat → Bool) (url : String)
    (h : containsSub (net.get url) maintenanceMarker = true) :
    resolve_vidhog net cancel url = (.error .unavailable, 0) ∧
    resolve_uploadorb net url = (.error .unavailable, 0) ∧
    resolve_jumbofiles net url = (.error .unavailable, 0) ∧
    resolve_movreel net url = (.error .unavailable, 0) ∧
    resolve_billionuploads net cancel url = (.error .unavailable, 0) := by
  refine ⟨?_, ?_, ?_, ?_, ?_⟩
  · simp [resolve_vidhog, h]
  · simp [resolve_uploadorb, h]
  · simp [resolve_jumbofiles, h]
  · simp [resolve_movreel, h]
  · simp [resolve_billionuploads, h]

/-- C3 witness: the amended maintenance-mode theorem applied to a network
serving the bare marker page. -/
theorem icecaca_C3_maintenance_mode_witness :
    resolve_vidhog netMaint (fun _ => false) "http://vidhog.com/x" = (.error .unavailable, 0) ∧
    resolve_uploadorb netMaint "http://uploadorb.com/x" = (.error .unavailable, 0) ∧
    resolve_jumbofiles netMaint "http://jumbofiles.com/x" = (.error .unavailable, 0) ∧
    resolve_movreel netMaint "http://movreel.com/x" = (.error .unavailable, 0) ∧
    resolve_billionuploads netMaint (fun _ => false) "http://billionuploads.com/x" =
      (.error .unavailable, 0) :=
  ⟨(icecaca_C3_maintenance_mode netMaint (fun _ => false) "http://vidhog.com/x" rfl).1,
   (icecaca_C3_maintenance_mode netMaint (fun _ => false) "http://uploadorb.com/x" rfl).2.1,
   (icecaca_C3_maintenance_mode netMaint (fun _ => false) "http://jumbofiles.com/x" rfl).2.2.1,
   (icecaca_C3_maintenance_mode netMaint (fun _ => false) "http://movreel.com/x" rfl).2.2.2.1,
   (icecaca_C3_maintenance_mode netMaint (fun _ => false) "http://billionuploads.com/x" rfl).2.2.2.2⟩

/-- C4 counterexample: `Wait(-3)` does not behave as `Wait(1)`: with a
cancellation signalled at the first tick, `do_wait 1` performs one tick
and reports Cancelled, while `do_wait (-3)` performs zero ticks and
reports Completed. -/
theorem icecaca_C4_counterexample :
    do_wait (-3) (fun _ => true) = (true, 0) ∧
    do_wait 1 (fun _ => true) = (false, 1) ∧
    do_wait (-3) (fun _ => true) ≠ do_wait 1 (fun _ => true) := by
  refine ⟨rfl, rfl, by decide⟩

/-- C4 (amended): `do_wait` normalizes only an exactly-zero duration to
one second (so `Wait(0)` behaves as `Wait(1)`); a strictly negative
duration is passed through unchanged, the countdown loop body never runs,
and the wait returns Completed immediately with zero ticks. -/
theorem icecaca_C4_wait_normalization (cancel : Nat → Bool) (t : Int) :
    do_wait 0 cancel = do_wait 1 cancel ∧
    (t < 0 → do_wait t cancel = (true, 0)) := by
  refine ⟨rfl, fun ht => ?_⟩
  unfold do_wait wait_countdown
  rw [if_neg (by omega : ¬ t = 0), Int.toNat_of_nonpos (le_of_lt ht)]
  rfl

/-- C4 witness: the amended wait-normalization theorem applied at duration
`-3` with an always-cancelling dialog. -/
theorem icecaca_C4_wait_normalization_witness :
    do_wait 0 (fun _ => true) = do_wait 1 (fun _ => true) ∧
    do_wait (-3) (fun _ => true) = (true, 0) :=
  ⟨(icecaca_C4_wait_normalization (fun _ => true) (-3)).1,
   (icecaca_C4_wait_normalization (fun _ => true) (-3)).2 (by decide)⟩

/-- C5: with the watched threshold 80% (setting index 1 of the fixed
70%/80%/90% list) and stacked part durations `[100, 100]` accumulating to
a total of 200, a final running position of 150 (75%) is classified not
watched and 161 (80.5%) is classified watched, both when playback of the
final part ends and when it stops; in general the ended handler marks the
video watched exactly when `currentTime / totalTime` reaches the
threshold. -/
theorem icecaca_C5_watched_percentage :
    get_watched_percent 1 = some (4/5 : ℚ) ∧
    accumTotalTime [100, 100] = 200 ∧
    onPlayBackEnded_marks true 150 200 (4/5) = some false ∧
    onPlayBackEnded_marks true 161 200 (4/5) = some true ∧
    onPlayBackStopped_marks true 150 200 (4/5) = some false ∧
    onPlayBackStopped_marks true 161 200 (4/5) = some true ∧
    ∀ ct : ℚ, onPlayBackEnded_marks true ct 200 (4/5) = some (decide (ct / 200 ≥ 4/5)) := by
  refine ⟨by norm_num [get_watched_percent], by norm_num [accumTotalTime], ?_, ?_, ?_, ?_, ?_⟩
  · simp [onPlayBackEnded_marks]
    norm_num
  · simp [onPlayBackEnded_marks]
    norm_num
  · simp [onPlayBackStopped_marks]
    norm_num
  · simp [onPlayBackStopped_marks]
    norm_num
  · intro ct
    simp [onPlayBackEnded_marks]

/-- C6: a completed transfer of 9999 bytes raises `SmallFile` (a failed
transfer whose partial file is deleted exactly when the delete-incomplete
policy is on), while a completed transfer of exactly 10000 bytes is
classified successful and the file is kept. -/
theorem icecaca_C6_small_file_boundary (delete_incomplete video_seek : Bool) :
    DownloadThread_run none 9999 delete_incomplete video_seek =
      { result := .smallFile, partialDeleted := delete_incomplete,
        sentinelRemoved := true, cancelNotified := false } ∧
    DownloadThread_run none 10000 delete_incomplete video_seek =
      { result := .completed, partialDeleted := false,
        sentinelRemoved := true, cancelNotified := false } := by
  refine ⟨rfl, rfl⟩

/-- C7 counterexample: with the `Downloading` sentinel present but the
liveness ping unanswered, `Download_And_Play` does not decline — it
clears the sentinel, deletes the recorded destination of the previous job
(delete-incomplete on), and starts a new download thread. -/
theorem icecaca_C7_counterexample :
    dapStale.downloading = some ("/dl/old.avi", "Old Video") ∧
    Download_And_Play_gate dapStale = .started true (some "/dl/old.avi") := by
  refine ⟨rfl, rfl⟩

/-- C7 (amended): a second start attempt declines exactly when the
existing download answers the Ping/Alive liveness handshake: with the
`Downloading` sentinel present and an `Alive` reply observed,
`Download_And_Play` starts no new thread and only surfaces the running
job's name and path; an unanswered sentinel is treated as stale and a new
download is started after cleanup. -/
theorem icecaca_C7_decline_when_alive (env : DapEnv) (p n : String)
    (hpath : env.mypath ≠ "path not set")
    (hdl : env.downloading.isSome = true)
    (halive : env.aliveReply = some (p, n)) :
    Download_And_Play_gate env = .declinedActive p n := by
  unfold Download_And_Play_gate
  rw [if_neg hpath]
  obtain ⟨dl, hd⟩ := Option.isSome_iff_exists.mp hdl
  rw [hd, halive]

/-- C7 witness: the amended decline theorem applied to a directory whose
active downloader answers the ping. -/
theorem icecaca_C7_decline_when_alive_witness :
    Download_And_Play_gate dapAlive = .declinedActive "/dl/old.avi" "Old Video" :=
  icecaca_C7_decline_when_alive dapAlive "/dl/old.avi" "Old Video" (by decide) rfl rfl

/-- C8: recording a part with `PART` preserves the binding of every other
part number of that source's table and leaves every other Session Store
key untouched, and the `Stream_Source` loop (whether a part resolution
succeeds or fails) performs no Session Store writes at all. -/
theorem icecaca_C8_part_table_frame (cache : String → Option PartTable)
    (sn pn u p k : String) (hp : p ≠ pn) (hk : k ≠ sourcePartsKey sn) :
    pyDictGet ((PART_record cache sn pn u (sourcePartsKey sn)).getD []) p =
      pyDictGet ((cache (sourcePartsKey sn)).getD []) p ∧
    PART_record cache sn pn u k = cache k ∧
    ∀ (name : String) (resolve : String → Except Unit (Option String))
      (play : String → Bool) (stacked : Bool) (url : String) (fuel cp : Nat)
      (acc : List Nat) (plays : List String),
      (Stream_Source_loop cache name resolve play stacked url fuel cp acc plays).2 = cache := by
  refine ⟨?_, ?_, ?_⟩
  · cases hc : cache (sourcePartsKey sn) with
    | none => simp [PART_record, hc, pyDictSet, pyDictGet, Ne.symm hp]
    | some t => simp [PART_record, hc, pyDictGet_pyDictSet_ne t pn u p hp]
  · simp [PART_record, hk]
  · intro name resolve play stacked url fuel cp acc plays
    exact Stream_Source_loop_store_frame cache name resolve play stacked url fuel cp acc plays

/-- C8 witness: the frame theorem applied to the concrete two-part table
of source 1: recording a new part 3 preserves the part 1 binding, and an
unrelated key is untouched. -/
theorem icecaca_C8_part_table_frame_witness :
    pyDictGet ((PART_record partsCacheAB "1" "3" "urlC" (sourcePartsKey "1")).getD []) "1" =
      pyDictGet ((partsCacheAB (sourcePartsKey "1")).getD []) "1" ∧
    PART_record partsCacheAB "1" "3" "urlC" "videoname" = partsCacheAB "videoname" := by
  have h := icecaca_C8_part_table_frame partsCacheAB "1" "3" "urlC" "1" "videoname"
    (by decide) (by decide)
  exact ⟨h.1, h.2.1⟩

/-- C9: the stacked-part lookup derives the source number from the single
character `name[8:9]` (the one right after `Source #`), so the Session
Store key consulted is always `source<one character>parts`; the key is
correct for sources 1 through 9, but for source 12 it is `source1parts` —
the same key as source 1 — so the lookup reads the wrong table when both
exist. -/
theorem icecaca_C9_source_number_truncation (c : Char) (cs : List Char) (rest : String) :
    stacked_source_key ("Source #" ++ String.mk (c :: cs) ++ rest) =
      "source" ++ String.mk [c] ++ "parts" ∧
    stacked_source_key "Source #12 | MU | Part 1" = "source1parts" ∧
    stacked_source_key "Source #12 | MU | Part 1" =
      stacked_source_key "Source #1 | MU | Part 1" ∧
    get_stacked_part twoTableCache "Source #12 | MU | Part 1" "1" =
      .ok (some "url-of-source-1") ∧
    pyDictGet ((twoTableCache "source12parts").getD []) "1" = some "url-of-source-12" := by
  refine ⟨?_, rfl, rfl, rfl, rfl⟩
  unfold stacked_source_key sourcePartsKey
  rw [pySlice89_sourceName]

/-- C10: `GetURL` is total over transport failures — any exception raised
inside the request/read/cookie block is caught, the communication-failure
notification fires, and the empty string is returned as the page body;
the successful paths return the body (with the cookie tag appended when
requested and extracted). -/
theorem icecaca_C10_geturl_totality (save_cookie : Bool) :
    GetURL HttpResp.fails save_cookie = ("", true) ∧
    GetURL (HttpResp.ok "BODY" (some "nocookiepair")) true = ("", true) ∧
    GetURL (HttpResp.ok "BODY" (some "sid=abc; path=/")) true =
      ("BODY<cookie>sid=abc</cookie>", false) ∧
    GetURL (HttpResp.ok "BODY" none) false = ("BODY", false) := by
  refine ⟨rfl, rfl, rfl, rfl⟩
